import Mathlib

/-!
Shallow embedding of the containerd client task controller
(`client/task.go`): the delete precondition state machine, asynchronous
wait delivery, exec IO-lifecycle cleanup, the metrics lookup and the
checkpoint protocol.  External collaborators (the task RPC service, the
content store, the image catalog, the diff engine, the lease manager)
are modelled as oracles: each call site takes its outcome from an
environment record, and every observable side effect is recorded in an
event trace returned alongside the result.
-/

namespace Containerd

/-- Domain error kinds: the `errdefs` taxonomy used by the client
(`goPanic` marks a place where the Go code would panic at runtime). -/
inductive ErrKind where
  | notFound
  | invalidArgument
  | failedPrecondition
  | alreadyExists
  | internal
  | unavailable
  | goPanic
  | other
  deriving DecidableEq, Repr

/-- A domain error: a kind plus a message.  `fmt.Errorf` wrapping with
`%w` keeps the kind and prepends to the message. -/
structure Err where
  kind : ErrKind
  msg : String
  deriving DecidableEq, Repr

/-- `errdefs.IsNotFound` on a domain error. -/
def IsNotFound (e : Err) : Bool :=
  e.kind = ErrKind.notFound

/-- Error wrapping with a message prefix and `%w`: the kind is
preserved, as `errors.Is` would still recognise the wrapped error. -/
def wrapErr (pre : String) (e : Err) : Err :=
  ⟨e.kind, pre ++ e.msg⟩

/-- `client.UnknownExitStatus`: the sentinel 255 for an undeterminable
exit status. -/
def UnknownExitStatus : Nat := 255

/-- ProcessStatus `Running = "running"`. -/
def Running : String := "running"

/-- ProcessStatus `Created = "created"`. -/
def Created : String := "created"

/-- ProcessStatus `Stopped = "stopped"`. -/
def Stopped : String := "stopped"

/-- ProcessStatus `Paused = "paused"`. -/
def Paused : String := "paused"

/-- ProcessStatus `Pausing = "pausing"`. -/
def Pausing : String := "pausing"

/-- ProcessStatus `Unknown = "unknown"`. -/
def Unknown : String := "unknown"

/-- `plugins.RuntimePlugin.String() + ".windows"`, the windows-variant
runtime name compared against in `task.Delete`. -/
def windowsRuntime : String := "io.containerd.runtime.v1.windows"

/-- `plugins.RuntimeRuncV2`, the runc-v2 runtime name compared against
in `isCheckpointPathExist`. -/
def RuntimeRuncV2 : String := "io.containerd.runc.v2"

/-- The `client.Status` snapshot: status string, exit status, exit time
(time modelled as a natural number). -/
structure Status where
  status : String
  exitStatus : Nat
  exitTime : Nat
  deriving DecidableEq, Repr

/-- The zero value `Status{}` left in `status` when `t.Status(ctx)`
returns an error inside `Delete`. -/
def Status.zero : Status := ⟨"", 0, 0⟩

/-- The `client.ExitStatus` terminal record: code, exit time, optional
captured error. -/
structure ExitStatus where
  code : Nat
  exitedAt : Nat
  err : Option Err
  deriving DecidableEq, Repr

/-- The client-side `task` struct: identity, last observed pid, and
whether an IO handle (`t.io`, nullable `cio.IO`) is attached.  The IO
handle's behaviour is observed through the event trace, so its presence
is all the state we keep. -/
structure Task where
  id : String
  pid : Nat
  ioHandle : Option Unit
  deriving DecidableEq, Repr

/-- Observable side effects of a task-controller call, in program
order: IO lifecycle operations, RPCs issued, and external-service
writes made during checkpoint. -/
inductive Event where
  | ioCreateCall
  | ioCancel
  | ioWait
  | ioClose
  | deleteCall
  | execCall
  | pauseCall
  | resumeCall
  | checkpointCall
  | imageGetCall
  | diffCall
  | indexWrite
  | imageCreateCall
  | leaseRelease
  deriving DecidableEq, Repr

/-- Payload of a successful `TaskService().Delete` response. -/
structure DeleteResponse where
  exitStatus : Nat
  exitedAt : Nat
  deriving DecidableEq, Repr

/-- Oracle outcomes for the calls `task.Delete` makes: the pre-delete
hooks (`opts`, each either succeeding or failing), `t.Status(ctx)`,
`t.client.defaultRuntime(ctx)`, and the delete RPC. -/
structure DeleteEnv where
  hookResults : List (Option Err)
  statusResult : Except Err Status
  defaultRuntime : Except Err String
  deleteResult : Except Err DeleteResponse

/-- First error among the pre-delete hook outcomes, mirroring the
`for _, o := range opts` loop that aborts on the first failure. -/
def firstHookErr : List (Option Err) → Option Err
  | [] => none
  | none :: rest => firstHookErr rest
  | some e :: _ => some e

/-- The `switch status.Status` precondition of `task.Delete` (lines
381-396): `stopped` / `unknown` / empty proceed; `created` proceeds on
the windows runtime or when the tracked pid is 0; everything else falls
through to the rejection. -/
def deletePreconditionOK (status runtime : String) (pid : Nat) : Bool :=
  if status = Stopped ∨ status = Unknown ∨ status = "" then
    true
  else if status = Created then
    if runtime = windowsRuntime then
      true
    else if pid = 0 then
      true
    else
      false
  else
    false

/-- The part of `task.Delete` after the status fetch: resolve the
default runtime, evaluate the precondition, run the IO shutdown
sequence (with the windows-specific early close), issue the delete RPC,
and close the IO handle only after a successful RPC. -/
def Task.deleteAfterStatus (t : Task) (status : Status) (env : DeleteEnv) :
    Except Err ExitStatus × List Event :=
  match env.defaultRuntime with
  | Except.error e => (Except.error (wrapErr "failed to get default runtime: " e), [])
  | Except.ok runtime =>
    if deletePreconditionOK status.status runtime t.pid then
      let ioPre : List Event :=
        match t.ioHandle with
        | none => []
        | some _ =>
          (if runtime = windowsRuntime then [Event.ioClose] else [])
            ++ [Event.ioCancel, Event.ioWait]
      match env.deleteResult with
      | Except.error e => (Except.error e, ioPre ++ [Event.deleteCall])
      | Except.ok r =>
        let ioPost : List Event :=
          match t.ioHandle with
          | none => []
          | some _ => [Event.ioClose]
        (Except.ok ⟨r.exitStatus, r.exitedAt, none⟩,
          ioPre ++ [Event.deleteCall] ++ ioPost)
    else
      (Except.error
        ⟨ErrKind.failedPrecondition,
          "task must be stopped before deletion: " ++ status.status⟩, [])

/-- Shallow embedding of `task.Delete` (lines 361-422): run the hooks,
fetch the status — propagating the error only when it is not-found,
otherwise continuing with the zero `Status{}` — then hand over to
`deleteAfterStatus`. -/
def Task.Delete (t : Task) (env : DeleteEnv) :
    Except Err ExitStatus × List Event :=
  match firstHookErr env.hookResults with
  | some e => (Except.error e, [])
  | none =>
    match env.statusResult with
    | Except.error e =>
      if IsNotFound e then
        (Except.error e, [])
      else
        t.deleteAfterStatus Status.zero env
    | Except.ok s => t.deleteAfterStatus s env

/-- Payload of a successful `TaskService().Wait` response. -/
structure WaitResponse where
  exitStatus : Nat
  exitedAt : Nat
  deriving DecidableEq, Repr

/-- The channel created by `task.Wait` together with the effect of its
background goroutine: the declared capacity, the list of values sent,
and whether the channel was closed after sending. -/
structure WaitChannel where
  capacity : Nat
  sent : List ExitStatus
  closed : Bool
  deriving DecidableEq, Repr

/-- Shallow embedding of `task.Wait` (lines 332-356): a capacity-1
channel on which the background goroutine sends exactly one
`ExitStatus` — the RPC result on success, the sentinel 255 with the
captured error on failure — and then (`defer close(c)`) closes the
channel. -/
def Task.Wait (rpc : Except Err WaitResponse) : WaitChannel :=
  { capacity := 1
    sent :=
      match rpc with
      | Except.error e => [⟨UnknownExitStatus, 0, some e⟩]
      | Except.ok r => [⟨r.exitStatus, r.exitedAt, none⟩]
    closed := true }

/-- The `process` record returned by a successful `task.Exec`: the exec
id, the owning task's id (the `task` back-reference), with the created
IO handle attached. -/
structure ProcessRec where
  id : String
  taskId : String
  hasIOHandle : Bool
  deriving DecidableEq, Repr

/-- Oracle outcomes for the calls `task.Exec` makes: the IO factory
`ioCreate(id)`, the spec marshalling `typeurl.MarshalAnyToProto(spec)`,
and the exec RPC. -/
structure ExecEnv where
  ioCreateResult : Except Err Unit
  marshalResult : Except Err Unit
  execResult : Except Err Unit

/-- Shallow embedding of `task.Exec` (lines 424-468).  An empty id is
rejected before the IO factory runs.  After IO creation, a deferred
cleanup cancels and closes the handle whenever an error is returned;
the exec-RPC failure path additionally runs its own explicit
cancel / wait / close sequence before that deferred cleanup fires. -/
def Task.Exec (t : Task) (id : String) (env : ExecEnv) :
    Except Err ProcessRec × List Event :=
  if id = "" then
    (Except.error ⟨ErrKind.invalidArgument, "exec id must not be empty"⟩, [])
  else
    match env.ioCreateResult with
    | Except.error e => (Except.error e, [Event.ioCreateCall])
    | Except.ok _ =>
      match env.marshalResult with
      | Except.error e =>
        (Except.error e, [Event.ioCreateCall, Event.ioCancel, Event.ioClose])
      | Except.ok _ =>
        match env.execResult with
        | Except.error e =>
          (Except.error e,
            [Event.ioCreateCall, Event.execCall, Event.ioCancel, Event.ioWait,
              Event.ioClose, Event.ioCancel, Event.ioClose])
        | Except.ok _ =>
          (Except.ok ⟨id, t.id, true⟩, [Event.ioCreateCall, Event.execCall])

/-- An opaque runtime metric value (`types.Metric`). -/
structure Metric where
  payload : String
  deriving DecidableEq, Repr

/-- Oracle outcomes for `task.Metrics`: the metrics RPC — `none` models
a nil `response.Metrics` slice, `some l` a non-nil slice — and the
follow-up `t.Status(ctx)` lookup. -/
structure MetricsEnv where
  metricsResult : Except Err (Option (List Metric))
  statusResult : Except Err Status

/-- Shallow embedding of `task.Metrics` (lines 682-701).  A nil metrics
slice triggers a status lookup: a not-found error there is propagated,
anything else yields the distinct "no metrics received" error.  A
non-nil slice is indexed at 0 — which in Go panics when the slice is
empty, modelled as the `goPanic` error kind. -/
def Task.Metrics (env : MetricsEnv) : Except Err Metric :=
  match env.metricsResult with
  | Except.error e => Except.error e
  | Except.ok none =>
    match env.statusResult with
    | Except.error e =>
      if IsNotFound e then
        Except.error e
      else
        Except.error ⟨ErrKind.other, "no metrics received"⟩
    | Except.ok _ => Except.error ⟨ErrKind.other, "no metrics received"⟩
  | Except.ok (some l) =>
    match l.head? with
    | some m => Except.ok m
    | none => Except.error ⟨ErrKind.goPanic, "index out of range [0] with length 0"⟩

/-- The opaque runtime-specific options carried in
`CheckpointTaskInfo.Options` (a Go `interface{}`): nil, a
`*options.CheckpointOptions` with its `ImagePath` field, or a payload
of any other type. -/
inductive RuntimeOpts where
  | noOpts
  | checkpointOpts (imagePath : String)
  | otherOpts
  deriving DecidableEq, Repr

/-- Shallow embedding of `isCheckpointPathExist` (lines 777-790): true
exactly when the options are a non-nil `*options.CheckpointOptions`
with a non-empty `ImagePath` and the runtime is runc-v2. -/
def isCheckpointPathExist (runtime : String) (v : RuntimeOpts) : Bool :=
  match v with
  | RuntimeOpts.noOpts => false
  | RuntimeOpts.checkpointOpts imagePath =>
    if runtime = RuntimeRuncV2 then
      decide (imagePath ≠ "")
    else
      false
  | RuntimeOpts.otherOpts => false

/-- The `CheckpointTaskInfo` record: name (defaulted when empty),
parent checkpoint digest, opaque options, and the runtime name
inherited from the owning container. -/
structure CheckpointTaskInfo where
  Name : String
  ParentCheckpoint : String
  Options : RuntimeOpts
  runtime : String
  deriving DecidableEq, Repr

/-- The container record fetched by `ContainerService().Get`: runtime
name, source image name, snapshot key and snapshotter. -/
structure ContainerRecord where
  runtimeName : String
  image : String
  snapshotKey : String
  snapshotter : String
  deriving DecidableEq, Repr

/-- An OCI content descriptor as assembled into the checkpoint index:
media type, size, digest, optional platform (OS, architecture), and
annotations. -/
structure Descriptor where
  mediaType : String
  size : Nat
  digest : String
  platform : Option (String × String)
  annots : List (String × String)
  deriving DecidableEq, Repr

/-- The zero descriptor (`images.Image{}.Target`). -/
def Descriptor.zero : Descriptor := ⟨"", 0, "", none, []⟩

/-- The OCI index under construction during checkpoint. -/
structure OCIIndex where
  schemaVersion : Nat
  manifests : List Descriptor
  annots : List (String × String)
  deriving DecidableEq, Repr

/-- A registered image entry (`images.Image`): name, target descriptor,
labels. -/
structure ImageRecord where
  name : String
  target : Descriptor
  labels : List (String × String)
  deriving DecidableEq, Repr

/-- The zero image `images.Image{}` wrapped by `NewImage` on the
external-checkpoint-path short-circuit. -/
def ImageRecord.zero : ImageRecord := ⟨"", Descriptor.zero, []⟩

/-- `goruntime.GOOS` of the build. -/
def goOS : String := "linux"

/-- `goruntime.GOARCH` of the build. -/
def goARCH : String := "amd64"

/-- Oracle outcomes for the calls `task.Checkpoint` makes, in call
order: the lease acquisition, the container lookup, the caller-supplied
`CheckpointTaskOpts` (each a function on the info, possibly failing),
the formatted current time used for the default name, the options
marshalling, the status fetch, the pause RPC, the checkpoint RPC (its
descriptors), the source-image lookup (its target descriptor), the
read-write snapshot diff, the index write, and the image registration. -/
structure CheckpointEnv where
  leaseResult : Except Err Unit
  containerResult : Except Err ContainerRecord
  opts : List (CheckpointTaskInfo → Except Err CheckpointTaskInfo)
  now : String
  marshalOptionsResult : Except Err Unit
  statusResult : Except Err Status
  pauseResult : Except Err Unit
  checkpointResult : Except Err (List Descriptor)
  imageGetResult : Except Err Descriptor
  diffResult : Except Err Descriptor
  writeIndexResult : Except Err Descriptor
  imageCreateResult : Except Err ImageRecord

/-- The `for _, o := range opts` loop of `Checkpoint`: apply each
option to the info, aborting on the first error. -/
def applyCheckpointOpts :
    List (CheckpointTaskInfo → Except Err CheckpointTaskInfo) →
    CheckpointTaskInfo → Except Err CheckpointTaskInfo
  | [], i => Except.ok i
  | o :: rest, i =>
    match o i with
    | Except.error e => Except.error e
    | Except.ok i2 => applyCheckpointOpts rest i2

/-- `task.checkpointTask` (lines 703-723): issue the checkpoint RPC and
append every returned descriptor to the index with the local platform
filled in. -/
def checkpointTaskStep (index : OCIIndex) (descs : List Descriptor) : OCIIndex :=
  { index with
    manifests := index.manifests ++ descs.map (fun d =>
      { mediaType := d.mediaType
        size := d.size
        digest := d.digest
        platform := some (goOS, goARCH)
        annots := d.annots }) }

/-- The steps of `Checkpoint` after the runtime-state capture (lines
581-612): external-path short-circuit, image capture, read-write
snapshot diff, index write and image registration. -/
def Task.checkpointAfterCapture (env : CheckpointEnv) (cr : ContainerRecord)
    (info : CheckpointTaskInfo) (index : OCIIndex) :
    Except Err ImageRecord × List Event :=
  if isCheckpointPathExist cr.runtimeName info.Options then
    (Except.ok ImageRecord.zero, [])
  else
    let imgStep : Except Err OCIIndex × List Event :=
      if cr.image = "" then
        (Except.ok index, [])
      else
        match env.imageGetResult with
        | Except.error e => (Except.error e, [Event.imageGetCall])
        | Except.ok target =>
          (Except.ok
            { index with
              manifests := index.manifests ++ [target]
              annots := index.annots ++ [("image.name", cr.image)] },
            [Event.imageGetCall])
    match imgStep.1 with
    | Except.error e => (Except.error e, imgStep.2)
    | Except.ok index2 =>
      let rwStep : Except Err OCIIndex × List Event :=
        if cr.snapshotKey = "" then
          (Except.ok index2, [])
        else
          match env.diffResult with
          | Except.error e => (Except.error e, [Event.diffCall])
          | Except.ok rw =>
            (Except.ok
              { index2 with
                manifests := index2.manifests ++
                  [{ rw with platform := some (goOS, goARCH) }] },
              [Event.diffCall])
      match rwStep.1 with
      | Except.error e => (Except.error e, imgStep.2 ++ rwStep.2)
      | Except.ok _ =>
        match env.writeIndexResult with
        | Except.error e =>
          (Except.error e, imgStep.2 ++ rwStep.2 ++ [Event.indexWrite])
        | Except.ok desc =>
          match env.imageCreateResult with
          | Except.error e =>
            (Except.error e,
              imgStep.2 ++ rwStep.2 ++ [Event.indexWrite, Event.imageCreateCall])
          | Except.ok im =>
            let _requested : ImageRecord :=
              ⟨info.Name, desc, [("containerd.io/checkpoint", "true")]⟩
            (Except.ok im,
              imgStep.2 ++ rwStep.2 ++ [Event.indexWrite, Event.imageCreateCall])

/-- The body of `Checkpoint` after the request parameters are built
(lines 559-612): fetch the status, pause when not already paused with a
deferred resume on every exit path of the remainder, capture the
runtime state, and finish with `checkpointAfterCapture`. -/
def Task.checkpointBody (env : CheckpointEnv) (cr : ContainerRecord)
    (info : CheckpointTaskInfo) : Except Err ImageRecord × List Event :=
  let capture : Except Err ImageRecord × List Event :=
    match env.checkpointResult with
    | Except.error e => (Except.error e, [Event.checkpointCall])
    | Except.ok descs =>
      let index := checkpointTaskStep ⟨2, [], []⟩ descs
      let rest := Task.checkpointAfterCapture env cr info index
      (rest.1, Event.checkpointCall :: rest.2)
  match env.statusResult with
  | Except.error e => (Except.error e, [])
  | Except.ok status =>
    if status.status = Paused then
      capture
    else
      match env.pauseResult with
      | Except.error e => (Except.error e, [Event.pauseCall])
      | Except.ok _ =>
        (capture.1, Event.pauseCall :: (capture.2 ++ [Event.resumeCall]))

/-- Shallow embedding of `task.Checkpoint` (lines 524-613): acquire a
lease (released by `defer done(ctx)` on every exit path after it
succeeds), look up the container, build the `CheckpointTaskInfo` from
the caller options with the defaulted name, marshal the options when
set, and run `checkpointBody`. -/
def Task.Checkpoint (t : Task) (env : CheckpointEnv) :
    Except Err ImageRecord × List Event :=
  match env.leaseResult with
  | Except.error e => (Except.error e, [])
  | Except.ok _ =>
    let inner : Except Err ImageRecord × List Event :=
      match env.containerResult with
      | Except.error e => (Except.error e, [])
      | Except.ok cr =>
        match applyCheckpointOpts env.opts ⟨"", "", RuntimeOpts.noOpts, cr.runtimeName⟩ with
        | Except.error e => (Except.error e, [])
        | Except.ok i1 =>
          let info :=
            if i1.Name = "" then
              { i1 with
                Name := "containerd.io/checkpoint/" ++ t.id ++ ":" ++ env.now }
            else
              i1
          let marshalStep : Except Err Unit :=
            if info.Options = RuntimeOpts.noOpts then
              Except.ok ()
            else
              env.marshalOptionsResult
          match marshalStep with
          | Except.error e => (Except.error e, [])
          | Except.ok _ => Task.checkpointBody env cr info
    (inner.1, inner.2 ++ [Event.leaseRelease])

/-- Claim C1: for every task whose fetched remote status is `running`
(likewise `paused` or `pausing`), Delete returns a failed-precondition
error carrying the observed status string, and the delete RPC is never
issued. -/
theorem delete_running_rejected (t : Task) (env : DeleteEnv) (s : Status) (rt : String)
    (hhook : firstHookErr env.hookResults = none)
    (hst : env.statusResult = Except.ok s)
    (hrt : env.defaultRuntime = Except.ok rt)
    (hs : s.status = Running ∨ s.status = Paused ∨ s.status = Pausing) :
    (t.Delete env).1 = Except.error
      ⟨ErrKind.failedPrecondition, "task must be stopped before deletion: " ++ s.status⟩
    ∧ Event.deleteCall ∉ (t.Delete env).2 := by
  have hpre : deletePreconditionOK s.status rt t.pid = false := by
    rcases hs with h | h | h <;>
      simp [deletePreconditionOK, h, Running, Paused, Pausing, Stopped, Unknown, Created]
  simp [Task.Delete, hhook, hst, Task.deleteAfterStatus, hrt, hpre]

/-- Witness for C1 at a concrete running task. -/
theorem delete_running_rejected_witness :
    (Task.Delete ⟨"t1", 12, some ()⟩
      { hookResults := []
        statusResult := Except.ok ⟨"running", 0, 0⟩
        defaultRuntime := Except.ok "io.containerd.runc.v2"
        deleteResult := Except.ok ⟨0, 0⟩ }).1
      = Except.error
          ⟨ErrKind.failedPrecondition, "task must be stopped before deletion: " ++ "running"⟩
    ∧ Event.deleteCall ∉ (Task.Delete ⟨"t1", 12, some ()⟩
      { hookResults := []
        statusResult := Except.ok ⟨"running", 0, 0⟩
        defaultRuntime := Except.ok "io.containerd.runc.v2"
        deleteResult := Except.ok ⟨0, 0⟩ }).2 :=
  delete_running_rejected ⟨"t1", 12, some ()⟩
    ⟨[], Except.ok ⟨"running", 0, 0⟩, Except.ok "io.containerd.runc.v2", Except.ok ⟨0, 0⟩⟩
    ⟨"running", 0, 0⟩ "io.containerd.runc.v2" rfl rfl rfl (Or.inl rfl)

/-- Claim C2: for a task whose fetched status is `created`, Delete
proceeds to the delete RPC exactly when the tracked pid is 0 or the
resolved runtime is the windows-variant runtime; otherwise the call is
rejected with the failed-precondition error carrying the status. -/
theorem delete_created_precondition (t : Task) (env : DeleteEnv) (s : Status) (rt : String)
    (hhook : firstHookErr env.hookResults = none)
    (hst : env.statusResult = Except.ok s)
    (hs : s.status = Created)
    (hrt : env.defaultRuntime = Except.ok rt) :
    (Event.deleteCall ∈ (t.Delete env).2 ↔ (t.pid = 0 ∨ rt = windowsRuntime))
    ∧ (¬ (t.pid = 0 ∨ rt = windowsRuntime) →
        (t.Delete env).1 = Except.error
          ⟨ErrKind.failedPrecondition, "task must be stopped before deletion: " ++ s.status⟩) := by
  by_cases hw : rt = windowsRuntime <;> by_cases hp : t.pid = 0 <;>
    cases hio : t.ioHandle <;> cases hdel : env.deleteResult <;>
    simp [Task.Delete, hhook, hst, Task.deleteAfterStatus, hrt, deletePreconditionOK, hs,
      Created, Stopped, Unknown, hw, hp, hio, hdel]

/-- Witness for C2: a created task with pid 0 on a non-windows runtime
proceeds to the delete RPC. -/
theorem delete_created_precondition_witness :
    Event.deleteCall ∈ (Task.Delete ⟨"t1", 0, none⟩
      { hookResults := []
        statusResult := Except.ok ⟨"created", 0, 0⟩
        defaultRuntime := Except.ok "io.containerd.runc.v2"
        deleteResult := Except.ok ⟨0, 0⟩ }).2 :=
  (delete_created_precondition ⟨"t1", 0, none⟩
    ⟨[], Except.ok ⟨"created", 0, 0⟩, Except.ok "io.containerd.runc.v2", Except.ok ⟨0, 0⟩⟩
    ⟨"created", 0, 0⟩ "io.containerd.runc.v2" rfl rfl rfl rfl).1.mpr (Or.inl rfl)

/-- Counterexample to C3 as stated: on the windows-variant runtime with
an IO handle attached, the handle is closed before the delete RPC is
issued, so a close happens even on the RPC-error path. -/
theorem delete_io_closed_on_error_path :
    Event.ioClose ∈ (Task.Delete ⟨"t1", 7, some ()⟩
      { hookResults := []
        statusResult := Except.ok ⟨"stopped", 0, 0⟩
        defaultRuntime := Except.ok windowsRuntime
        deleteResult := Except.error ⟨ErrKind.internal, "rpc failed"⟩ }).2
    ∧ (Task.Delete ⟨"t1", 7, some ()⟩
      { hookResults := []
        statusResult := Except.ok ⟨"stopped", 0, 0⟩
        defaultRuntime := Except.ok windowsRuntime
        deleteResult := Except.error ⟨ErrKind.internal, "rpc failed"⟩ }).1
      = Except.error ⟨ErrKind.internal, "rpc failed"⟩ := by
  constructor
  · decide
  · rfl

/-- Claim C3 as amended: on runtimes other than the windows variant,
with fetched status `stopped` / `unknown` / empty, a successful delete
RPC yields the exit status and time from the response, the IO handle is
closed only after the RPC (the full trace with an IO handle present is
cancel, wait, delete RPC, close), and no close happens on the RPC-error
path.  (On the windows variant the handle is additionally closed before
the RPC is issued.) -/
theorem delete_stopped_success (t : Task) (env : DeleteEnv) (s : Status) (rt : String)
    (hhook : firstHookErr env.hookResults = none)
    (hst : env.statusResult = Except.ok s)
    (hs : s.status = Stopped ∨ s.status = Unknown ∨ s.status = "")
    (hrt : env.defaultRuntime = Except.ok rt)
    (hw : rt ≠ windowsRuntime) :
    (∀ r, env.deleteResult = Except.ok r →
      (t.Delete env).1 = Except.ok ⟨r.exitStatus, r.exitedAt, none⟩)
    ∧ (∀ e, env.deleteResult = Except.error e →
        Event.ioClose ∉ (t.Delete env).2)
    ∧ (∀ r, env.deleteResult = Except.ok r → t.ioHandle = some () →
        (t.Delete env).2 =
          [Event.ioCancel, Event.ioWait, Event.deleteCall, Event.ioClose]) := by
  have hpre : deletePreconditionOK s.status rt t.pid = true := by
    rcases hs with h | h | h <;>
      simp [deletePreconditionOK, h, Stopped, Unknown]
  refine ⟨?_, ?_, ?_⟩
  · intro r hdel
    cases hio : t.ioHandle <;>
      simp [Task.Delete, hhook, hst, Task.deleteAfterStatus, hrt, hpre, hdel, hio]
  · intro e hdel
    cases hio : t.ioHandle <;>
      simp [Task.Delete, hhook, hst, Task.deleteAfterStatus, hrt, hpre, hdel, hio, hw]
  · intro r hdel hio
    simp [Task.Delete, hhook, hst, Task.deleteAfterStatus, hrt, hpre, hdel, hio, hw]

/-- Witness for the amended C3 at a concrete stopped task on runc-v2. -/
theorem delete_stopped_success_witness :
    (Task.Delete ⟨"t1", 9, some ()⟩
      { hookResults := []
        statusResult := Except.ok ⟨"stopped", 3, 44⟩
        defaultRuntime := Except.ok "io.containerd.runc.v2"
        deleteResult := Except.ok ⟨3, 44⟩ }).1
      = Except.ok ⟨3, 44, none⟩
    ∧ (Task.Delete ⟨"t1", 9, some ()⟩
      { hookResults := []
        statusResult := Except.ok ⟨"stopped", 3, 44⟩
        defaultRuntime := Except.ok "io.containerd.runc.v2"
        deleteResult := Except.ok ⟨3, 44⟩ }).2
      = [Event.ioCancel, Event.ioWait, Event.deleteCall, Event.ioClose] :=
  ⟨(delete_stopped_success ⟨"t1", 9, some ()⟩
      ⟨[], Except.ok ⟨"stopped", 3, 44⟩, Except.ok "io.containerd.runc.v2", Except.ok ⟨3, 44⟩⟩
      ⟨"stopped", 3, 44⟩ "io.containerd.runc.v2" rfl rfl (Or.inl rfl) rfl
      (by decide)).1 ⟨3, 44⟩ rfl,
    (delete_stopped_success ⟨"t1", 9, some ()⟩
      ⟨[], Except.ok ⟨"stopped", 3, 44⟩, Except.ok "io.containerd.runc.v2", Except.ok ⟨3, 44⟩⟩
      ⟨"stopped", 3, 44⟩ "io.containerd.runc.v2" rfl rfl (Or.inl rfl) rfl
      (by decide)).2.2 ⟨3, 44⟩ rfl rfl⟩

/-- Claim C4: when the status lookup inside Delete fails with an error
that is not not-found, Delete behaves exactly as if the lookup had
returned the zero `Status{}` (whose empty status string satisfies the
precondition), so the delete RPC is still issued. -/
theorem delete_status_error_ignored (t : Task) (env : DeleteEnv) (e : Err)
    (hst : env.statusResult = Except.error e)
    (hnf : IsNotFound e = false) :
    t.Delete env = t.Delete { env with statusResult := Except.ok Status.zero }
    ∧ (firstHookErr env.hookResults = none →
       ∀ rt, env.defaultRuntime = Except.ok rt →
         Event.deleteCall ∈ (t.Delete env).2) := by
  constructor
  · cases hhk : firstHookErr env.hookResults with
    | some e2 => simp [Task.Delete, hst, hnf, hhk]
    | none => simp [Task.Delete, hst, hnf, hhk, Task.deleteAfterStatus]
  · intro hhook rt hrt
    have hpre : deletePreconditionOK Status.zero.status rt t.pid = true := by
      simp [deletePreconditionOK, Status.zero, Stopped, Unknown]
    cases hio : t.ioHandle <;> cases hdel : env.deleteResult <;>
      simp [Task.Delete, hhook, hst, hnf, Task.deleteAfterStatus, hrt, hpre, hio, hdel]

/-- Witness for C4: an unavailable-transport status failure still leads
to the delete RPC. -/
theorem delete_status_error_ignored_witness :
    Event.deleteCall ∈ (Task.Delete ⟨"t1", 5, none⟩
      { hookResults := []
        statusResult := Except.error ⟨ErrKind.unavailable, "transport down"⟩
        defaultRuntime := Except.ok "io.containerd.runc.v2"
        deleteResult := Except.ok ⟨0, 0⟩ }).2 :=
  (delete_status_error_ignored ⟨"t1", 5, none⟩
    ⟨[], Except.error ⟨ErrKind.unavailable, "transport down"⟩,
      Except.ok "io.containerd.runc.v2", Except.ok ⟨0, 0⟩⟩
    ⟨ErrKind.unavailable, "transport down"⟩ rfl rfl).2 rfl "io.containerd.runc.v2" rfl

/-- Claim C5: every Wait call yields a capacity-1 channel on which the
background operation delivers exactly one ExitStatus and then closes
the channel, for success and failure alike; on failure the code is the
sentinel 255 with the error attached, and the single send fits the
buffer so the producer never blocks. -/
theorem wait_delivers_once (rpc : Except Err WaitResponse) :
    (Task.Wait rpc).capacity = 1
    ∧ (Task.Wait rpc).sent.length = 1
    ∧ (Task.Wait rpc).closed = true
    ∧ (Task.Wait rpc).sent.length ≤ (Task.Wait rpc).capacity
    ∧ (∀ e, rpc = Except.error e →
        (Task.Wait rpc).sent = [⟨UnknownExitStatus, 0, some e⟩])
    ∧ (∀ r, rpc = Except.ok r →
        (Task.Wait rpc).sent = [⟨r.exitStatus, r.exitedAt, none⟩]) := by
  cases rpc <;> simp [Task.Wait]

/-- Witness for C5 at a concrete failed wait RPC. -/
theorem wait_delivers_once_witness :
    (Task.Wait (Except.error ⟨ErrKind.unavailable, "rpc failed"⟩)).sent
      = [⟨UnknownExitStatus, 0, some ⟨ErrKind.unavailable, "rpc failed"⟩⟩]
    ∧ (Task.Wait (Except.error ⟨ErrKind.unavailable, "rpc failed"⟩)).capacity = 1 :=
  ⟨(wait_delivers_once (Except.error ⟨ErrKind.unavailable, "rpc failed"⟩)).2.2.2.2.1
      ⟨ErrKind.unavailable, "rpc failed"⟩ rfl,
    (wait_delivers_once (Except.error ⟨ErrKind.unavailable, "rpc failed"⟩)).1⟩

/-- Claim C8: Exec with an empty exec id returns the invalid-argument
error with an empty trace — in particular the IO factory is never
invoked, so no IO handle is created. -/
theorem exec_empty_id_rejected (t : Task) (env : ExecEnv) :
    Task.Exec t "" env =
      (Except.error ⟨ErrKind.invalidArgument, "exec id must not be empty"⟩, []) := by
  simp [Task.Exec]

/-- Counterexample to C9 as stated: on a spec-marshalling failure the
deferred cleanup cancels and closes the IO handle but never drains it —
no `ioWait` appears in the trace. -/
theorem exec_marshal_failure_not_drained :
    (Task.Exec ⟨"t1", 4, none⟩ "e1"
      ⟨Except.ok (), Except.error ⟨ErrKind.internal, "marshal failed"⟩, Except.ok ()⟩).2
      = [Event.ioCreateCall, Event.ioCancel, Event.ioClose]
    ∧ Event.ioWait ∉ (Task.Exec ⟨"t1", 4, none⟩ "e1"
      ⟨Except.ok (), Except.error ⟨ErrKind.internal, "marshal failed"⟩, Except.ok ()⟩).2 := by
  constructor
  · rfl
  · decide

/-- Claim C9 as amended: after the IO factory succeeds, an exec-RPC
failure cancels, drains and closes the handle (and the deferred cleanup
then cancels and closes once more) before the error propagates, while a
spec-marshalling failure cancels and closes the handle — without
draining it — before the error propagates. -/
theorem exec_failure_io_cleanup (t : Task) (id : String) (env : ExecEnv)
    (hid : id ≠ "")
    (hio : env.ioCreateResult = Except.ok ()) :
    (∀ e, env.marshalResult = Except.error e →
      Task.Exec t id env =
        (Except.error e, [Event.ioCreateCall, Event.ioCancel, Event.ioClose]))
    ∧ (∀ e, env.marshalResult = Except.ok () → env.execResult = Except.error e →
        Task.Exec t id env =
          (Except.error e,
            [Event.ioCreateCall, Event.execCall, Event.ioCancel, Event.ioWait,
              Event.ioClose, Event.ioCancel, Event.ioClose])) := by
  constructor
  · intro e hm
    simp [Task.Exec, hid, hio, hm]
  · intro e hm hx
    simp [Task.Exec, hid, hio, hm, hx]

/-- Witness for the amended C9 at a concrete failed exec RPC. -/
theorem exec_failure_io_cleanup_witness :
    Task.Exec ⟨"t1", 4, none⟩ "e1"
      ⟨Except.ok (), Except.ok (), Except.error ⟨ErrKind.internal, "exec rpc failed"⟩⟩
      = (Except.error ⟨ErrKind.internal, "exec rpc failed"⟩,
          [Event.ioCreateCall, Event.execCall, Event.ioCancel, Event.ioWait,
            Event.ioClose, Event.ioCancel, Event.ioClose]) :=
  (exec_failure_io_cleanup ⟨"t1", 4, none⟩ "e1"
    ⟨Except.ok (), Except.ok (), Except.error ⟨ErrKind.internal, "exec rpc failed"⟩⟩
    (by decide) rfl).2 ⟨ErrKind.internal, "exec rpc failed"⟩ rfl rfl

/-- Claim C10: when the metrics RPC succeeds with a nil metrics slice,
a not-found failure of the follow-up status lookup is propagated, a
successful status lookup yields the distinct "no metrics received"
error, and in no case is a metric value returned. -/
theorem metrics_empty_result (env : MetricsEnv)
    (hm : env.metricsResult = Except.ok none) :
    (∀ e, env.statusResult = Except.error e → IsNotFound e = true →
      Task.Metrics env = Except.error e)
    ∧ (∀ s, env.statusResult = Except.ok s →
        Task.Metrics env = Except.error ⟨ErrKind.other, "no metrics received"⟩)
    ∧ (∀ m, Task.Metrics env ≠ Except.ok m) := by
  refine ⟨?_, ?_, ?_⟩
  · intro e hst hnf
    simp [Task.Metrics, hm, hst, hnf]
  · intro s hst
    simp [Task.Metrics, hm, hst]
  · intro m
    cases hst : env.statusResult with
    | error e =>
      cases hnf : IsNotFound e <;> simp [Task.Metrics, hm, hst, hnf]
    | ok s =>
      simp [Task.Metrics, hm, hst]

/-- Witness for C10: a not-found status error is propagated when the
metrics slice is nil. -/
theorem metrics_empty_result_witness :
    Task.Metrics
      ⟨Except.ok none, Except.error ⟨ErrKind.notFound, "task gone"⟩⟩
      = Except.error ⟨ErrKind.notFound, "task gone"⟩ :=
  (metrics_empty_result
    ⟨Except.ok none, Except.error ⟨ErrKind.notFound, "task gone"⟩⟩ rfl).1
    ⟨ErrKind.notFound, "task gone"⟩ rfl rfl

/-- Claim C6: whenever Checkpoint observes a status other than `paused`
and successfully pauses the task, the deferred Resume is invoked on
every exit path — in particular for every possible outcome of the
runtime-state capture, image lookup, diff computation, index write and
image registration, success or failure. -/
theorem checkpoint_always_resumes (t : Task) (env : CheckpointEnv)
    (cr : ContainerRecord) (i1 : CheckpointTaskInfo) (s : Status)
    (hl : env.leaseResult = Except.ok ())
    (hc : env.containerResult = Except.ok cr)
    (ho : applyCheckpointOpts env.opts ⟨"", "", RuntimeOpts.noOpts, cr.runtimeName⟩
      = Except.ok i1)
    (hmar : env.marshalOptionsResult = Except.ok ())
    (hst : env.statusResult = Except.ok s)
    (hs : s.status ≠ Paused)
    (hp : env.pauseResult = Except.ok ()) :
    Event.resumeCall ∈ (t.Checkpoint env).2 := by
  simp [Task.Checkpoint, hl, hc, ho, hmar, apply_ite, Task.checkpointBody, hst, hs, hp]

/-- Witness for C6: the task is resumed even when the checkpoint RPC
itself fails. -/
theorem checkpoint_always_resumes_witness :
    Event.resumeCall ∈ (Task.Checkpoint ⟨"t1", 2, none⟩
      { leaseResult := Except.ok ()
        containerResult := Except.ok ⟨"io.containerd.runc.v2", "img", "snap", "overlayfs"⟩
        opts := []
        now := "01-02-2006-15:04:05"
        marshalOptionsResult := Except.ok ()
        statusResult := Except.ok ⟨"running", 0, 0⟩
        pauseResult := Except.ok ()
        checkpointResult := Except.error ⟨ErrKind.internal, "checkpoint rpc failed"⟩
        imageGetResult := Except.ok ⟨"mt", 1, "d3", none, []⟩
        diffResult := Except.ok ⟨"mt", 2, "d4", none, []⟩
        writeIndexResult := Except.ok ⟨"mt", 3, "d5", none, []⟩
        imageCreateResult := Except.ok ⟨"ck", ⟨"mt", 3, "d5", none, []⟩, []⟩ }).2 :=
  checkpoint_always_resumes ⟨"t1", 2, none⟩
    { leaseResult := Except.ok ()
      containerResult := Except.ok ⟨"io.containerd.runc.v2", "img", "snap", "overlayfs"⟩
      opts := []
      now := "01-02-2006-15:04:05"
      marshalOptionsResult := Except.ok ()
      statusResult := Except.ok ⟨"running", 0, 0⟩
      pauseResult := Except.ok ()
      checkpointResult := Except.error ⟨ErrKind.internal, "checkpoint rpc failed"⟩
      imageGetResult := Except.ok ⟨"mt", 1, "d3", none, []⟩
      diffResult := Except.ok ⟨"mt", 2, "d4", none, []⟩
      writeIndexResult := Except.ok ⟨"mt", 3, "d5", none, []⟩
      imageCreateResult := Except.ok ⟨"ck", ⟨"mt", 3, "d5", none, []⟩, []⟩ }
    ⟨"io.containerd.runc.v2", "img", "snap", "overlayfs"⟩
    ⟨"", "", RuntimeOpts.noOpts, "io.containerd.runc.v2"⟩
    ⟨"running", 0, 0⟩ rfl rfl rfl rfl rfl (by decide) rfl

/-- Claim C7: on the runc-v2 runtime with checkpoint options carrying a
non-empty external image path, a completed checkpoint RPC makes
Checkpoint return the zero image (empty target) without looking up the
source image, computing a diff, writing the index, or registering an
image; and since the short-circuit is evaluated only after the
checkpoint RPC, a failing RPC yields that error instead of the empty
image. -/
theorem checkpoint_external_path_short_circuit (t : Task) (env : CheckpointEnv)
    (cr : ContainerRecord) (i1 : CheckpointTaskInfo) (s : Status) (p : String)
    (hl : env.leaseResult = Except.ok ())
    (hc : env.containerResult = Except.ok cr)
    (hrt : cr.runtimeName = RuntimeRuncV2)
    (ho : applyCheckpointOpts env.opts ⟨"", "", RuntimeOpts.noOpts, cr.runtimeName⟩
      = Except.ok i1)
    (hop : i1.Options = RuntimeOpts.checkpointOpts p)
    (hp : p ≠ "")
    (hmar : env.marshalOptionsResult = Except.ok ())
    (hst : env.statusResult = Except.ok s)
    (hpause : s.status = Paused ∨ env.pauseResult = Except.ok ()) :
    (∀ descs, env.checkpointResult = Except.ok descs →
      (t.Checkpoint env).1 = Except.ok ImageRecord.zero
      ∧ Event.checkpointCall ∈ (t.Checkpoint env).2
      ∧ Event.imageGetCall ∉ (t.Checkpoint env).2
      ∧ Event.diffCall ∉ (t.Checkpoint env).2
      ∧ Event.indexWrite ∉ (t.Checkpoint env).2
      ∧ Event.imageCreateCall ∉ (t.Checkpoint env).2)
    ∧ (∀ e, env.checkpointResult = Except.error e →
        (t.Checkpoint env).1 = Except.error e) := by
  have hpath : isCheckpointPathExist cr.runtimeName i1.Options = true := by
    simp [isCheckpointPathExist, hrt, hop, hp]
  constructor
  · intro descs hck
    rcases hpause with hps | hpok
    · simp [Task.Checkpoint, hl, hc, ho, hmar, apply_ite, Task.checkpointBody, hst, hps,
        hck, Task.checkpointAfterCapture, hpath]
    · by_cases hps : s.status = Paused <;>
        simp [Task.Checkpoint, hl, hc, ho, hmar, apply_ite, Task.checkpointBody, hst, hps,
          hpok, hck, Task.checkpointAfterCapture, hpath]
  · intro e hck
    rcases hpause with hps | hpok
    · simp [Task.Checkpoint, hl, hc, ho, hmar, apply_ite, Task.checkpointBody, hst, hps, hck]
    · by_cases hps : s.status = Paused <;>
        simp [Task.Checkpoint, hl, hc, ho, hmar, apply_ite, Task.checkpointBody, hst, hps,
          hpok, hck]

/-- Witness for C7: a paused runc-v2 task with an external checkpoint
path yields the zero image and writes neither the index nor an image
entry. -/
theorem checkpoint_external_path_short_circuit_witness :
    (Task.Checkpoint ⟨"t1", 2, none⟩
      { leaseResult := Except.ok ()
        containerResult := Except.ok ⟨"io.containerd.runc.v2", "img", "snap", "overlayfs"⟩
        opts := [fun i => Except.ok { i with Options := RuntimeOpts.checkpointOpts "/ckpt" }]
        now := "01-02-2006-15:04:05"
        marshalOptionsResult := Except.ok ()
        statusResult := Except.ok ⟨"paused", 0, 0⟩
        pauseResult := Except.ok ()
        checkpointResult := Except.ok []
        imageGetResult := Except.ok ⟨"mt", 1, "d3", none, []⟩
        diffResult := Except.ok ⟨"mt", 2, "d4", none, []⟩
        writeIndexResult := Except.ok ⟨"mt", 3, "d5", none, []⟩
        imageCreateResult := Except.ok ⟨"ck", ⟨"mt", 3, "d5", none, []⟩, []⟩ }).1
      = Except.ok ImageRecord.zero
    ∧ Event.indexWrite ∉ (Task.Checkpoint ⟨"t1", 2, none⟩
      { leaseResult := Except.ok ()
        containerResult := Except.ok ⟨"io.containerd.runc.v2", "img", "snap", "overlayfs"⟩
        opts := [fun i => Except.ok { i with Options := RuntimeOpts.checkpointOpts "/ckpt" }]
        now := "01-02-2006-15:04:05"
        marshalOptionsResult := Except.ok ()
        statusResult := Except.ok ⟨"paused", 0, 0⟩
        pauseResult := Except.ok ()
        checkpointResult := Except.ok []
        imageGetResult := Except.ok ⟨"mt", 1, "d3", none, []⟩
        diffResult := Except.ok ⟨"mt", 2, "d4", none, []⟩
        writeIndexResult := Except.ok ⟨"mt", 3, "d5", none, []⟩
        imageCreateResult := Except.ok ⟨"ck", ⟨"mt", 3, "d5", none, []⟩, []⟩ }).2 := by
  have h := (checkpoint_external_path_short_circuit ⟨"t1", 2, none⟩
    { leaseResult := Except.ok ()
      containerResult := Except.ok ⟨"io.containerd.runc.v2", "img", "snap", "overlayfs"⟩
      opts := [fun i => Except.ok { i with Options := RuntimeOpts.checkpointOpts "/ckpt" }]
      now := "01-02-2006-15:04:05"
      marshalOptionsResult := Except.ok ()
      statusResult := Except.ok ⟨"paused", 0, 0⟩
      pauseResult := Except.ok ()
      checkpointResult := Except.ok []
      imageGetResult := Except.ok ⟨"mt", 1, "d3", none, []⟩
      diffResult := Except.ok ⟨"mt", 2, "d4", none, []⟩
      writeIndexResult := Except.ok ⟨"mt", 3, "d5", none, []⟩
      imageCreateResult := Except.ok ⟨"ck", ⟨"mt", 3, "d5", none, []⟩, []⟩ }
    ⟨"io.containerd.runc.v2", "img", "snap", "overlayfs"⟩
    ⟨"", "", RuntimeOpts.checkpointOpts "/ckpt", "io.containerd.runc.v2"⟩
    ⟨"paused", 0, 0⟩ "/ckpt" rfl rfl rfl rfl rfl (by decide) rfl rfl
    (Or.inl rfl)).1 [] rfl
  exact ⟨h.1, h.2.2.2.2.1⟩

end Containerd
